import Mathlib

/-!
Shallow embedding of `cgmquantify` (files `src/cgmquantify/utils.py` and
`src/cgmquantify/measures.py`).

Conventions of the embedding:
* a timestamp is a rational number of minutes since 1970-01-01 00:00:00 UTC
  (pandas timestamps are integer nanoseconds, so every representable instant
  is rational);
* a float array that may hold NaN is a `List (Option ℚ)` with `none` for NaN
  (likewise NaT for datetimes); float arithmetic is modelled exactly over `ℚ`;
* Python `%` on integers is `Int.fmod` (floor remainder, sign of the divisor);
* Python exceptions are the `Except` error channel.
-/

/-- Calendar helper: leap-year test used by the timestamp parser. -/
def isLeapYear (y : ℤ) : Bool :=
  (decide (y % 4 = 0) && decide (y % 100 ≠ 0)) || decide (y % 400 = 0)

/-- Calendar helper: number of days in month `m` of year `y`. -/
def daysInMonth (y : ℤ) (m : ℕ) : ℕ :=
  if m = 2 then (if isLeapYear y then 29 else 28)
  else if m = 4 ∨ m = 6 ∨ m = 9 ∨ m = 11 then 30
  else 31

/-- Days from 1970-01-01 to the civil date y-m-d (standard civil-from-days
inverse, Gregorian calendar), as used by any correct datetime library. -/
def daysFromCivil (y m d : ℤ) : ℤ :=
  let y2 := if m ≤ 2 then y - 1 else y
  let era := (if 0 ≤ y2 then y2 else y2 - 399) / 400
  let yoe := y2 - era * 400
  let mp := (m + 9) % 12
  let doy := (153 * mp + 2) / 5 + d - 1
  let doe := yoe * 365 + yoe / 4 - yoe / 100 + doy
  era * 146097 + doe - 719468

/-- Digit list to number. -/
def natOfDigits (cs : List Char) : ℕ :=
  cs.foldl (fun a c => 10 * a + (c.toNat - 48)) 0

/-- All characters are decimal digits. -/
def allDigits (cs : List Char) : Bool :=
  cs.all (fun c => decide ('0' ≤ c) && decide (c ≤ '9'))

/-- Model of `pd.to_datetime(s, format='%Y-%m-%d %H:%M:%S', errors='coerce')`
applied to one cell: strict 19-character parse, invalid input coerces to NaT
(`none`).  The result is the instant in minutes since the epoch (the parse is
done with `utc=True`, and a later `tz_convert` never changes the instant). -/
def parseTS (s : String) : Option ℚ :=
  match s.data with
  | [y1, y2, y3, y4, p1, o1, o2, p2, d1, d2, p3, h1, h2, p4, n1, n2, p5, s1, s2] =>
    if p1 = '-' ∧ p2 = '-' ∧ p3 = ' ' ∧ p4 = ':' ∧ p5 = ':'
        ∧ allDigits [y1, y2, y3, y4, o1, o2, d1, d2, h1, h2, n1, n2, s1, s2] then
      let yr : ℕ := natOfDigits [y1, y2, y3, y4]
      let mo : ℕ := natOfDigits [o1, o2]
      let dy : ℕ := natOfDigits [d1, d2]
      let hr : ℕ := natOfDigits [h1, h2]
      let mi : ℕ := natOfDigits [n1, n2]
      let sec : ℕ := natOfDigits [s1, s2]
      if 1 ≤ mo ∧ mo ≤ 12 ∧ 1 ≤ dy ∧ dy ≤ daysInMonth yr mo
          ∧ hr ≤ 23 ∧ mi ≤ 59 ∧ sec ≤ 59 then
        some ((daysFromCivil yr mo dy : ℚ) * 1440 + hr * 60 + mi + (sec : ℚ) / 60)
      else none
    else none
  | _ => none

/-- The `time` column of the input dataframe: either raw strings (dtype is not
datetime64) or an already-datetime column; `none` is NaT.  A datetime column
carries an optional fixed-offset timezone attribute (in minutes; `none` means
timezone-naive). -/
inductive TimeCol where
  | raw (ss : List String)
  | dt (ts : List (Option ℚ)) (tzOff : Option ℚ)
deriving DecidableEq

/-- The input dataframe of `cgms2daybyday`: columns `id`, `time`, `gl`
(`none` in `gl` is NaN). -/
structure DF where
  id : List ℚ
  time : TimeCol
  gl : List (Option ℚ)
deriving DecidableEq

/-- Dtype test `pd.api.types.is_datetime64_any_dtype(df['time'])` (true for
naive and tz-aware datetime columns alike). -/
def isDtCol : TimeCol → Bool
  | .raw _ => false
  | .dt _ _ => true

/-- Lines 27-30 of `utils.py`: when the `time` column is not already datetime,
it is parsed in place (`df['time'] = pd.to_datetime(...)`) and tz-converted.
This item assignment mutates the caller's dataframe object; every later
statement (`df = df.dropna(...)` etc.) only rebinds the local name.  The `tz`
argument is modelled as the fixed offset of the target zone; `tz_convert`
changes the column's timezone attribute but never the stored instants. -/
def convertTime (df : DF) (tz : ℚ) : DF :=
  match df.time with
  | .raw ss => { df with time := .dt (ss.map parseTS) (some tz) }
  | .dt _ _ => df

/-- The dataframe object the caller observes once the call has returned:
only the line-28 in-place column assignment survives the call. -/
def callerVisibleAfter (df : DF) (tz : ℚ) : DF := convertTime df tz

/-- The instants of the time column; `df['time'].values` drops a timezone and
yields the UTC instants. -/
def timeVals : TimeCol → List (Option ℚ)
  | .raw ss => ss.map parseTS
  | .dt ts _ => ts

/-- Row filter of `df.dropna(subset=['time','gl'])`: a row survives when
neither its time (NaT) nor its glucose (NaN) is missing. -/
def dropnaRow : ℚ × Option ℚ × Option ℚ → Option (ℚ × ℚ × ℚ)
  | (i, some t, some g) => some (i, t, g)
  | _ => none

/-- The rows surviving `df.dropna(subset=['time','gl'])`, in arrival order. -/
def rawRows (df : DF) : List (ℚ × ℚ × ℚ) :=
  (df.id.zip ((timeVals df.time).zip df.gl)).filterMap dropnaRow

/-- Lines 33-37 of `utils.py`: when `df['id'].nunique() > 1`, keep only the
rows of the first-appearing subject id (`df['id'].unique()[0]`). -/
def subjectRows (rows : List (ℚ × ℚ × ℚ)) : List (ℚ × ℚ × ℚ) :=
  if 1 < (rows.map (fun r => r.1)).dedup.length then
    match rows with
    | [] => rows
    | r0 :: _ => rows.filter (fun r => r.1 = r0.1)
  else rows

/-- Lines 31-40 of `utils.py`: drop NaT/NaN rows, select the single subject,
and extract the `(time, glucose)` pairs in arrival order.  (Lines 43-48
re-drop null times, but `dropna` already removed every null, so that step
keeps everything.) -/
def cleanRows (df : DF) : List (ℚ × ℚ) :=
  (subjectRows (rawRows df)).map (fun r => (r.2.1, r.2.2))

/-- Comparison of observations by timestamp (the key `np.argsort(tr)` sorts
by). -/
def leT (a b : ℚ × ℚ) : Prop := a.1 ≤ b.1

instance : DecidableRel leT := fun a b => inferInstanceAs (Decidable (a.1 ≤ b.1))

instance : IsTotal (ℚ × ℚ) leT := ⟨fun a b => le_total a.1 b.1⟩

instance : IsTrans (ℚ × ℚ) leT := ⟨fun _ _ _ => le_trans⟩

/-- Strict timestamp order. -/
def ltT (a b : ℚ × ℚ) : Prop := a.1 < b.1

instance : IsAntisymm (ℚ × ℚ) ltT :=
  ⟨fun _ _ h h2 => absurd (lt_trans h h2) (lt_irrefl _)⟩

/-- Consecutive time differences, `np.diff(tr)` in minutes. -/
def diffsOf : List (ℚ × ℚ) → List ℚ
  | a :: b :: rest => (b.1 - a.1) :: diffsOf (b :: rest)
  | _ => []

/-- Lines 53-58 of `utils.py`: if any consecutive difference is negative the
series is sorted by timestamp. -/
def sortStep (rows : List (ℚ × ℚ)) : List (ℚ × ℚ) :=
  if (diffsOf rows).any (fun d => decide (d < 0)) then
    List.insertionSort leT rows
  else rows

/-- Model of `tr[sorted(unique_indx)]` where
`_, unique_indx = np.unique(tr, return_index=True)`: `np.unique` reports the
index of the FIRST occurrence of each distinct value, so this keeps, in
arrival order, the first observation carrying each distinct timestamp. -/
def collapseFirstAux : List ℚ → List (ℚ × ℚ) → List (ℚ × ℚ)
  | _, [] => []
  | seen, r :: rs =>
    if r.1 ∈ seen then collapseFirstAux seen rs
    else r :: collapseFirstAux (r.1 :: seen) rs

/-- Lines 60-65 of `utils.py`: duplicate-timestamp collapse, triggered when
some consecutive difference is zero. -/
def collapseStep (rows : List (ℚ × ℚ)) : List (ℚ × ℚ) :=
  if (diffsOf rows).any (fun d => decide (d = 0)) then
    collapseFirstAux [] rows
  else rows

/-- The cleaned series of a call: timestamp repair, sort repair, duplicate
collapse (steps of lines 27-65 of `utils.py`). -/
def cleanedOf (df : DF) (tz : ℚ) : List (ℚ × ℚ) :=
  collapseStep (sortStep (cleanRows (convertTime df tz)))

/-- Sorted-middle median, `np.nanmedian` on a NaN-free float vector. -/
def medianQ (l : List ℚ) : ℚ :=
  let s := List.insertionSort (fun a b : ℚ => a ≤ b) l
  let n := s.length
  if n = 0 then 0
  else if n % 2 = 1 then s.getD (n / 2) 0
  else (s.getD (n / 2 - 1) 0 + s.getD (n / 2) 0) / 2

/-- Python `round` with no digits: round half to even. -/
def roundHalfEven (q : ℚ) : ℤ :=
  let f := ⌊q⌋
  let r := q - f
  if r < 1 / 2 then f
  else if 1 / 2 < r then f + 1
  else if f % 2 = 0 then f else f + 1

/-- Lines 74-79 of `utils.py`: grid-step recalculation.  When 1440 is not
divisible by `dt0` (Python `%` is `Int.fmod`): clamp to 20 if `dt0 > 20`,
otherwise move to a multiple of 5, down when `dt0 % 5 <= 2`, up otherwise. -/
def roundStep (d : ℤ) : ℤ :=
  if Int.fmod 1440 d ≠ 0 then
    if 20 < d then 20
    else if 2 < Int.fmod d 5 then d + (5 - Int.fmod d 5)
    else d - Int.fmod d 5
  else d

/-- Model of `np.arange(0, stop, step)` over integers (empty for a
non-positive step with non-negative stop, as in numpy). -/
def arangeZ (stop step : ℤ) : List ℤ :=
  if step ≤ 0 then []
  else (List.range ((stop + step - 1) / step).toNat).map (fun i => (i : ℤ) * step)

/-- Model of `np.interp(x, xp, fp)` at a single point: clamped linear
interpolation over strictly increasing nodes. -/
def interpOne : List (ℚ × ℚ) → ℚ → ℚ
  | [], _ => 0
  | [(_, g)], _ => g
  | (t1, g1) :: (t2, g2) :: rest, x =>
    if x ≤ t1 then g1
    else if x ≤ t2 then g1 + (g2 - g1) * (x - t1) / (t2 - t1)
    else interpOne ((t2, g2) :: rest) x

/-- Lines 99-105 of `utils.py`: `t` falls strictly inside some raw gap wider
than `inter_gap` (the mask condition of `time_covered`). -/
def inGapQ (rows : List (ℚ × ℚ)) (tds : List ℚ) (ig : ℚ) (t : ℚ) : Bool :=
  (tds.zip (rows.zip rows.tail)).any
    (fun p => decide (ig < p.1) && decide (p.2.1.1 < t) && decide (t < p.2.2.1))

/-- Model of `arr.reshape((nrows, -1))`. -/
def reshapeRows (nrows : ℕ) (l : List (Option ℚ)) : List (List (Option ℚ)) :=
  let k := l.length / nrows
  (List.range nrows).map (fun i => (l.drop (i * k)).take k)

/-- The value `cgms2daybyday` returns: the day-by-day matrix (cells are
floats, `none` models NaN), the row-date vector (day starts, minutes since
epoch) and the resolved grid step. -/
structure Output where
  gd2d : List (List (Option ℚ))
  dates : List ℚ
  dt0 : ℤ
deriving DecidableEq

/-- Python exceptions escaping `cgms2daybyday`:
* `tooSparse` is the declared `ValueError` of line 71;
* `medianOfEmpty` is the `ValueError` from `round(np.nanmedian([]))` = `round(nan)`
  at line 69 when there are fewer than two cleaned observations;
* `zeroDt0` is the `ZeroDivisionError` from `1440 % 0` at line 74;
* `emptySeries` is the `IndexError` from `tr[-1]` at line 82 on an empty
  cleaned series. -/
inductive CgmErr where
  | tooSparse
  | medianOfEmpty
  | zeroDt0
  | emptySeries
deriving DecidableEq

/-- Lines 81-112 of `utils.py`: grid construction, interpolation, gap masking
and reshape, given the resolved step `d`, the cleaned rows and their
consecutive differences.  Returns the function's return value together with
`new['glucose']`, the masked copy of the interpolation that lines 102-105
write (the return value at line 109 reshapes the UNMASKED `interp` array, so
the mask never reaches the caller).  `mind` is `tr.min().replace(hour=0,
minute=0, second=0)` (sub-second fields survive `replace`); the date vector
uses `mind.normalize()`, which clears them. -/
def buildGridFull (d : ℤ) (rows : List (ℚ × ℚ)) (tds : List ℚ) (ig : ℚ) :
    Except CgmErr (Output × List (Option ℚ)) :=
  match rows with
  | [] => .error .emptySeries
  | r0 :: rest =>
    let tFirst := r0.1
    let tLast := (rest.getLastD r0).1
    let ndays : ℤ := ⌈(tLast - tFirst) / 1440⌉ + 1
    let mind : ℚ := 1440 * ⌊tFirst / 1440⌋ + (tFirst * 60 - ⌊tFirst * 60⌋) / 60
    let timeOut : List ℚ := (arangeZ (ndays * 1440) d).map (fun m => mind + (m : ℚ))
    let interpVals : List ℚ := timeOut.map (interpOne (r0 :: rest))
    let masked : List (Option ℚ) :=
      (timeOut.zip interpVals).map
        (fun p => if inGapQ (r0 :: rest) tds ig p.1 then none else some p.2)
    let gd2d := reshapeRows ndays.toNat (interpVals.map some)
    let dates := (List.range ndays.toNat).map
      (fun i => 1440 * (⌊tFirst / 1440⌋ : ℚ) + 1440 * (i : ℚ))
    .ok (⟨gd2d, dates, d⟩, masked)

/-- Lines 70-79 of `utils.py`: the sparsity check `dt0 > inter_gap`, then the
`1440 % dt0` computation (a `ZeroDivisionError` when `dt0 = 0`), then the
grid-step recalculation, then the grid build. -/
def finishDt (d : ℤ) (rows : List (ℚ × ℚ)) (tds : List ℚ) (ig : ℚ) :
    Except CgmErr (Output × List (Option ℚ)) :=
  if ig < (d : ℚ) then .error .tooSparse
  else if d = 0 then .error .zeroDt0
  else buildGridFull (roundStep d) rows tds ig

/-- The pipeline from the cleaned series on (lines 67-112 of `utils.py`):
derive `dt0` from the median difference when it was not supplied. -/
def pipeAfterClean (rows : List (ℚ × ℚ)) (dt0 : Option ℤ) (ig : ℚ) :
    Except CgmErr (Output × List (Option ℚ)) :=
  match dt0 with
  | none =>
    if diffsOf rows = [] then .error .medianOfEmpty
    else finishDt (roundHalfEven (medianQ (diffsOf rows))) rows (diffsOf rows) ig
  | some k => finishDt k rows (diffsOf rows) ig

/-- Whole-call pipeline, carrying both the return value and the discarded
masked vector. -/
def pipelineCore (df : DF) (dt0 : Option ℤ) (ig tz : ℚ) :
    Except CgmErr (Output × List (Option ℚ)) :=
  pipeAfterClean (cleanedOf df tz) dt0 ig

/-- The function `cgms2daybyday(df, dt0, inter_gap, tz)` of `utils.py`. -/
def cgms2daybyday (df : DF) (dt0 : Option ℤ) (inter_gap tz : ℚ) :
    Except CgmErr Output :=
  (pipelineCore df dt0 inter_gap tz).map Prod.fst

/-- The vector `new['glucose']` after the gap masking of lines 102-105 (it is
computed and then discarded by the source). -/
def newGlucoseOf (df : DF) (dt0 : Option ℤ) (inter_gap tz : ℚ) :
    Except CgmErr (List (Option ℚ)) :=
  (pipelineCore df dt0 inter_gap tz).map Prod.snd

/-- Build a single-subject input dataframe (id 0 throughout, datetime-dtype
time column) from a series of (timestamp, glucose) observations. -/
def mkDF (rows : List (ℚ × ℚ)) : DF :=
  ⟨rows.map (fun _ => 0), .dt (rows.map (fun r => some r.1)) none,
    rows.map (fun r => some r.2)⟩

deriving instance DecidableEq for Except

set_option maxRecDepth 100000

set_option maxHeartbeats 2000000

/-- Result-cell values of the companion statistics of `measures.py`.  Exactly
rational results are `num`; float NaN is `nan`; irrational results are kept
symbolically with exact rational parameters: `sqrtv v` denotes `√v` (`np.std`
is the square root of the population variance), `mulSqrt a b` denotes `a·√b`,
`addMulSqrt a b c` denotes `a + b·√c`, and `madScaled m` denotes
`m / Φ⁻¹(3/4)`, the `scale='normal'` convention of
`scipy.stats.median_abs_deviation`. -/
inductive SVal where
  | num (x : ℚ)
  | nan
  | sqrtv (x : ℚ)
  | mulSqrt (a b : ℚ)
  | addMulSqrt (a b c : ℚ)
  | madScaled (m : ℚ)
deriving DecidableEq

/-- Input dataframe of the companion statistics: the declared column names
plus the `id` and `gl` data the statistics read. -/
structure MDF where
  cols : List String
  id : List ℚ
  gl : List (Option ℚ)
deriving DecidableEq

/-- The `ValueError` raised when `{'id', 'gl'}.issubset(df.columns)` fails. -/
inductive MErr where
  | missingCols
deriving DecidableEq

/-- The column precondition `{"id", "gl"}.issubset(df.columns)` shared by all
eight companion statistics. -/
def hasCols (df : MDF) : Bool :=
  df.cols.contains "id" && df.cols.contains "gl"

/-- Model of `df.groupby("id")["gl"]`: one group per distinct id, keys in
ascending order (pandas sorts group keys), each key with its glucose values
in row order. -/
def groupPairs (df : MDF) : List (ℚ × List (Option ℚ)) :=
  (List.insertionSort (fun a b : ℚ => a ≤ b) df.id.dedup).map
    (fun k => (k, (df.id.zip df.gl).filterMap
      (fun p => if p.1 = k then some p.2 else none)))

/-- Shared skeleton of the eight companion statistics of `measures.py`:
column check, group by subject id, one aggregated row per group
(`.agg(...)` followed by `.apply(pd.Series).reset_index()`). -/
def measureRun {α : Type} (stat : List (Option ℚ) → α) (df : MDF) :
    Except MErr (List (ℚ × α)) :=
  if hasCols df then .ok ((groupPairs df).map (fun p => (p.1, stat p.2)))
  else .error .missingCols

/-- The non-NaN values of a float vector (what the `nan...` aggregations
keep). -/
def someVals (xs : List (Option ℚ)) : List ℚ := xs.filterMap id

/-- Whether a float vector contains NaN (poisons non-`nan` numpy
aggregations such as `np.std`). -/
def hasNaN (xs : List (Option ℚ)) : Bool := xs.any (fun x => x.isNone)

/-- Arithmetic mean. -/
def meanQ (l : List ℚ) : ℚ := l.sum / l.length

/-- Population variance, so that `np.std l = √(popVarQ l)`. -/
def popVarQ (l : List ℚ) : ℚ :=
  ((l.map (fun x => (x - meanQ l) ^ 2)).sum) / l.length

/-- Model of `np.nanquantile(vals, p)` with the default linear method, on the
NaN-free value list. -/
def nanquantileQ (p : ℚ) (vals : List ℚ) : ℚ :=
  let s := List.insertionSort (fun a b : ℚ => a ≤ b) vals
  let n := s.length
  let h : ℚ := p * ((n : ℚ) - 1)
  let i : ℕ := (⌊h⌋).toNat
  let lo := s.getD i 0
  let hi := s.getD (min (i + 1) (n - 1)) 0
  lo + (h - (i : ℚ)) * (hi - lo)

/-- One cell of `above_percent`: `(group > t).mean() * 100` (a NaN glucose
compares as False and still counts in the denominator). -/
def aboveCell (t : ℚ) (xs : List (Option ℚ)) : SVal :=
  if xs.isEmpty then .nan
  else .num (100 * ((xs.countP
    (fun g => match g with | some v => decide (t < v) | none => false) : ℚ)
      / xs.length))

/-- The function `above_percent(df, targets_above)` of `measures.py`. -/
def above_percent (df : MDF) (targets_above : List ℚ) :
    Except MErr (List (ℚ × List (ℚ × SVal))) :=
  measureRun (fun xs => targets_above.map (fun t => (t, aboveCell t xs))) df

/-- One cell of `cv_glu`: `(np.std(x)/np.nanmean(x))*100`; `np.std` is the
NaN-poisoning population standard deviation. -/
def cvCell (xs : List (Option ℚ)) : SVal :=
  if hasNaN xs || xs.isEmpty then .nan
  else .mulSqrt (100 / meanQ (someVals xs)) (popVarQ (someVals xs))

/-- The function `cv_glu(df)` of `measures.py`. -/
def cv_glu (df : MDF) : Except MErr (List (ℚ × SVal)) := measureRun cvCell df

/-- One cell of `sd_glu`: `np.std(x)`. -/
def sdCell (xs : List (Option ℚ)) : SVal :=
  if hasNaN xs || xs.isEmpty then .nan
  else .sqrtv (popVarQ (someVals xs))

/-- The function `sd_glu(df)` of `measures.py`. -/
def sd_glu (df : MDF) : Except MErr (List (ℚ × SVal)) := measureRun sdCell df

/-- One cell of `mad_glu`:
`scipy.stats.median_abs_deviation(x, scale='normal', nan_policy='omit')`,
i.e. `median(|x - median(x)|) / Φ⁻¹(3/4)` over the non-NaN values. -/
def madCell (xs : List (Option ℚ)) : SVal :=
  if (someVals xs).isEmpty then .nan
  else .madScaled (medianQ ((someVals xs).map
    (fun x => |x - medianQ (someVals xs)|)))

/-- The function `mad_glu(df)` of `measures.py`. -/
def mad_glu (df : MDF) : Except MErr (List (ℚ × SVal)) := measureRun madCell df

/-- One cell of `iqr_glu`: `np.nanquantile(x,0.75) - np.nanquantile(x,0.25)`. -/
def iqrCell (xs : List (Option ℚ)) : SVal :=
  if (someVals xs).isEmpty then .nan
  else .num (nanquantileQ (3 / 4) (someVals xs) - nanquantileQ (1 / 4) (someVals xs))

/-- The function `iqr_glu(df)` of `measures.py`. -/
def iqr_glu (df : MDF) : Except MErr (List (ℚ × SVal)) := measureRun iqrCell df

/-- One cell of `range_glu`: `np.nanmax(x) - np.nanmin(x)`. -/
def rangeCell (xs : List (Option ℚ)) : SVal :=
  match someVals xs with
  | [] => .nan
  | v :: vs => .num ((vs.foldl max v) - (vs.foldl min v))

/-- The function `range_glu(df)` of `measures.py`. -/
def range_glu (df : MDF) : Except MErr (List (ℚ × SVal)) :=
  measureRun rangeCell df

/-- One cell of `quantile_glu`: `np.nanquantile(x, t/100)`. -/
def quantCell (t : ℚ) (xs : List (Option ℚ)) : SVal :=
  if (someVals xs).isEmpty then .nan
  else .num (nanquantileQ (t / 100) (someVals xs))

/-- The function `quantile_glu(df, quantiles)` of `measures.py`. -/
def quantile_glu (df : MDF) (quantiles : List ℚ) :
    Except MErr (List (ℚ × List (ℚ × SVal))) :=
  measureRun (fun xs => quantiles.map (fun t => (t, quantCell t xs))) df

/-- One cell of `j_index`: `0.001*(np.nanmean(x)+np.std(x))**2`, expanded to
`0.001·(μ² + σ²) + 0.002·μ·σ` with `σ = √popVarQ`. -/
def jCell (xs : List (Option ℚ)) : SVal :=
  if hasNaN xs || xs.isEmpty then .nan
  else .addMulSqrt
    ((1 / 1000) * ((meanQ (someVals xs)) ^ 2 + popVarQ (someVals xs)))
    ((2 / 1000) * meanQ (someVals xs))
    (popVarQ (someVals xs))

/-- The function `j_index(df)` of `measures.py`. -/
def j_index (df : MDF) : Except MErr (List (ℚ × SVal)) := measureRun jCell df

/-- Concrete one-observation input used by several witnesses. -/
def df0 : DF := mkDF [(0, 100)]

/-- The output of `cgms2daybyday` on `df0` with requested step 7. -/
def out0 : Output :=
  match cgms2daybyday df0 (some 7) 45 0 with
  | .ok r => r
  | .error _ => ⟨[], [], 0⟩

/-! General lemmas about the embedded pipeline. -/

/-- Consecutive differences of a timestamp-sorted series are non-negative. -/
theorem diffsOf_nonneg_of_pairwise :
    ∀ {l : List (ℚ × ℚ)}, l.Pairwise leT → ∀ x ∈ diffsOf l, 0 ≤ x
  | [], _, x, hx => by simp [diffsOf] at hx
  | [_], _, x, hx => by simp [diffsOf] at hx
  | a :: b :: rest, h, x, hx => by
    rw [diffsOf] at hx
    rcases List.mem_cons.mp hx with h1 | h2
    · subst h1
      have hab : leT a b := (List.pairwise_cons.mp h).1 b (by simp)
      simpa [leT, sub_nonneg] using hab
    · exact diffsOf_nonneg_of_pairwise (List.pairwise_cons.mp h).2 x h2

/-- A series with non-negative consecutive differences is chainwise sorted. -/
theorem chain'_of_diffsOf_nonneg :
    ∀ {l : List (ℚ × ℚ)}, (∀ x ∈ diffsOf l, 0 ≤ x) → l.Chain' leT
  | [], _ => List.chain'_nil
  | [a], _ => by simp
  | a :: b :: rest, h => by
    rw [List.chain'_cons]
    refine ⟨?_, chain'_of_diffsOf_nonneg ?_⟩
    · have hd := h (b.1 - a.1) (by rw [diffsOf]; exact List.mem_cons_self _ _)
      simpa [leT, sub_nonneg] using hd
    · intro x hx
      exact h x (by rw [diffsOf]; exact List.mem_cons_of_mem _ hx)

/-- A series with non-negative consecutive differences is pairwise sorted. -/
theorem pairwise_of_diffsOf_nonneg {l : List (ℚ × ℚ)}
    (h : ∀ x ∈ diffsOf l, 0 ≤ x) : l.Pairwise leT :=
  List.chain'_iff_pairwise.mp (chain'_of_diffsOf_nonneg h)

/-- The sort-repair step always yields a timestamp-sorted series. -/
theorem sortStep_pairwise (rows : List (ℚ × ℚ)) : (sortStep rows).Pairwise leT := by
  unfold sortStep
  split
  · exact List.sorted_insertionSort leT rows
  · next h =>
    apply pairwise_of_diffsOf_nonneg
    intro x hx
    by_contra hneg
    exact h (List.any_eq_true.mpr ⟨x, hx, by simpa using lt_of_not_le hneg⟩)

/-- The sort-repair step permutes the series. -/
theorem sortStep_perm (rows : List (ℚ × ℚ)) : (sortStep rows).Perm rows := by
  unfold sortStep
  split
  · exact List.perm_insertionSort leT rows
  · exact List.Perm.refl _

/-- The duplicate collapse keeps a sublist of the series. -/
theorem collapseFirstAux_sublist :
    ∀ (seen : List ℚ) (l : List (ℚ × ℚ)), List.Sublist (collapseFirstAux seen l) l
  | _, [] => List.Sublist.refl []
  | seen, r :: rs => by
    rw [collapseFirstAux]
    split
    · exact (collapseFirstAux_sublist seen rs).cons r
    · exact (collapseFirstAux_sublist (r.1 :: seen) rs).cons₂ r

/-- The cleaned series of any call is timestamp-sorted. -/
theorem cleanedOf_pairwise (df : DF) (tz : ℚ) : (cleanedOf df tz).Pairwise leT := by
  unfold cleanedOf collapseStep
  split
  · exact List.Pairwise.sublist (collapseFirstAux_sublist _ _) (sortStep_pairwise _)
  · exact sortStep_pairwise _

/-- Elements fetched with default 0 out of a non-negative list are
non-negative. -/
theorem getD_nonneg {s : List ℚ} (h : ∀ x ∈ s, 0 ≤ x) (i : ℕ) :
    0 ≤ s.getD i 0 := by
  rw [List.getD_eq_getElem?_getD]
  rcases hx : s[i]? with _ | x
  · simp
  · simpa using h x (List.getElem?_mem hx)

/-- The median of a non-negative list is non-negative. -/
theorem medianQ_nonneg {l : List ℚ} (h : ∀ x ∈ l, 0 ≤ x) : 0 ≤ medianQ l := by
  have hp := List.perm_insertionSort (fun a b : ℚ => a ≤ b) l
  have hs : ∀ x ∈ List.insertionSort (fun a b : ℚ => a ≤ b) l, 0 ≤ x :=
    fun x hx => h x (hp.subset hx)
  simp only [medianQ]
  split
  · exact le_refl 0
  · split
    · exact getD_nonneg hs _
    · have h1 := getD_nonneg hs
        ((List.insertionSort (fun a b : ℚ => a ≤ b) l).length / 2 - 1)
      have h2 := getD_nonneg hs
        ((List.insertionSort (fun a b : ℚ => a ≤ b) l).length / 2)
      positivity

/-- Python `round` does not make a non-negative number negative. -/
theorem roundHalfEven_nonneg {q : ℚ} (h : 0 ≤ q) : 0 ≤ roundHalfEven q := by
  have hf : (0 : ℤ) ≤ ⌊q⌋ := Int.floor_nonneg.mpr h
  simp only [roundHalfEven]
  split_ifs <;> omega

/-- The recalculated grid step of a positive step divides a day of 1440
minutes (in Python floor-remainder arithmetic). -/
theorem roundStep_fmod {d : ℤ} (hd : 0 < d) : Int.fmod 1440 (roundStep d) = 0 := by
  unfold roundStep
  split
  · next h =>
    split
    · decide
    · next h20 =>
      have h20' : d ≤ 20 := le_of_not_lt h20
      interval_cases d <;> revert h <;> decide
  · next h => simpa using h

/-- A successful grid build reports exactly the step it was given. -/
theorem buildGridFull_ok_dt0 {d : ℤ} {rows : List (ℚ × ℚ)} {tds : List ℚ}
    {ig : ℚ} {pr : Output × List (Option ℚ)}
    (h : buildGridFull d rows tds ig = .ok pr) : pr.1.dt0 = d := by
  match rows with
  | [] => simp [buildGridFull] at h
  | r0 :: rest =>
    simp only [buildGridFull] at h
    cases h
    rfl

/-- A successful `finishDt` passed the sparsity check, avoided the zero
division, and resolved the step through the recalculation. -/
theorem finishDt_ok {d : ℤ} {rows : List (ℚ × ℚ)} {tds : List ℚ} {ig : ℚ}
    {pr : Output × List (Option ℚ)} (h : finishDt d rows tds ig = .ok pr) :
    ¬ ig < (d : ℚ) ∧ d ≠ 0 ∧ pr.1.dt0 = roundStep d := by
  unfold finishDt at h
  split at h
  · cases h
  · split at h
    · cases h
    · next h1 h2 => exact ⟨h1, h2, buildGridFull_ok_dt0 h⟩

/-- A timestamp-sorted series with pairwise-distinct timestamps is strictly
sorted. -/
theorem pairwise_lt_of_key_nodup {l : List (ℚ × ℚ)} (hp : l.Pairwise leT)
    (hn : (l.map Prod.fst).Nodup) : l.Pairwise ltT := by
  have h2 : l.Pairwise (fun a b : ℚ × ℚ => a.1 ≠ b.1) := List.pairwise_map.mp hn
  exact (hp.and h2).imp (fun hab => lt_of_le_of_ne hab.1 hab.2)

/-- On duplicate-free timestamps, the sort-repair step is a function of the
multiset of observations only: any two permuted arrival orders sort to the
same series. -/
theorem sortStep_eq_of_perm {r1 r2 : List (ℚ × ℚ)} (hp : r1.Perm r2)
    (hn : (r1.map Prod.fst).Nodup) : sortStep r1 = sortStep r2 := by
  have hn2 : (r2.map Prod.fst).Nodup := (hp.map Prod.fst).nodup hn
  have hs1 : (sortStep r1).Sorted ltT :=
    pairwise_lt_of_key_nodup (sortStep_pairwise r1)
      (((sortStep_perm r1).map Prod.fst).symm.nodup hn)
  have hs2 : (sortStep r2).Sorted ltT :=
    pairwise_lt_of_key_nodup (sortStep_pairwise r2)
      (((sortStep_perm r2).map Prod.fst).symm.nodup hn2)
  exact List.eq_of_perm_of_sorted
    ((sortStep_perm r1).trans (hp.trans (sortStep_perm r2).symm)) hs1 hs2

/-- The rows a `mkDF`-built dataframe feeds into the subject selection. -/
theorem rawRows_mkDF : ∀ rows : List (ℚ × ℚ),
    rawRows (mkDF rows) = rows.map (fun r => ((0 : ℚ), r.1, r.2))
  | [] => rfl
  | r :: rs => by
    have ih := rawRows_mkDF rs
    simp only [rawRows, mkDF, timeVals, List.map_cons, List.zip_cons_cons,
      List.filterMap_cons, dropnaRow] at ih ⊢
    rw [ih]

/-- The subject selection keeps everything when all ids are equal. -/
theorem subjectRows_const (rows : List (ℚ × ℚ)) :
    subjectRows (rows.map (fun r => ((0 : ℚ), r.1, r.2)))
      = rows.map (fun r => ((0 : ℚ), r.1, r.2)) := by
  unfold subjectRows
  rw [if_neg]
  intro hcon
  rw [List.map_map] at hcon
  have hrepl : (rows.map ((fun r : ℚ × ℚ × ℚ => r.1) ∘ fun r : ℚ × ℚ =>
      ((0 : ℚ), r.1, r.2))) = List.replicate rows.length (0 : ℚ) :=
    List.map_const' rows 0
  rw [hrepl] at hcon
  rcases hn : rows.length with _ | n
  · rw [hn] at hcon; simp at hcon
  · rw [hn, List.replicate_dedup (Nat.succ_ne_zero n)] at hcon
    simp at hcon

/-- Cleaning a `mkDF`-built single-subject dataframe returns its series. -/
theorem cleanRows_mkDF (rows : List (ℚ × ℚ)) (tz : ℚ) :
    cleanRows (convertTime (mkDF rows) tz) = rows := by
  show cleanRows (mkDF rows) = rows
  unfold cleanRows
  rw [rawRows_mkDF, subjectRows_const, List.map_map]
  simp

/-- A column-check failure makes every companion statistic raise. -/
theorem measureRun_missing {α : Type} (stat : List (Option ℚ) → α) (df : MDF)
    (h : hasCols df = false) : measureRun stat df = .error .missingCols := by
  simp [measureRun, h]

/-- With both columns present, every companion statistic returns one row per
distinct subject id (keys in ascending order). -/
theorem measureRun_ids {α : Type} (stat : List (Option ℚ) → α) (df : MDF)
    (h : hasCols df = true) :
    (measureRun stat df).map (List.map Prod.fst)
      = .ok (List.insertionSort (fun a b : ℚ => a ≤ b) df.id.dedup) := by
  simp only [measureRun, h, if_true, groupPairs, Except.map, List.map_map]
  exact congrArg Except.ok (List.map_id'' (fun x => rfl) _)

/-- Once the sparsity and zero checks pass on a non-empty series, the grid
build succeeds or the declared error was already raised. -/
theorem finishDt_cases (d : ℤ) (r0 : ℚ × ℚ) (rest : List (ℚ × ℚ))
    (tds : List ℚ) (ig : ℚ) (hd : d ≠ 0) :
    (∃ pr, finishDt d (r0 :: rest) tds ig = .ok pr) ∨
      finishDt d (r0 :: rest) tds ig = .error .tooSparse := by
  unfold finishDt
  by_cases hig : ig < (d : ℚ)
  · right; rw [if_pos hig]
  · left; rw [if_neg hig, if_neg hd]; exact ⟨_, rfl⟩

/-! Claim theorems. -/

/-- C1: the claim requires every grid timestamp strictly inside a raw gap
wider than `inter_gap` to be NaN in the returned matrix.  The code computes
exactly that mask into the DataFrame `new` (lines 102-105) but line 109
reshapes the UNMASKED `interp` array, so the returned matrix keeps the
interpolated number.  At the series (0 min, 100), (60 min, 200) with
`dt0 = 20`, `inter_gap = 45`: the grid point at 20 min lies strictly inside
the 60-minute gap; the returned cell is the interpolated 400/3 while the
discarded masked vector holds NaN there. -/
theorem C1_gap_mask_discarded :
    (cgms2daybyday (mkDF [(0, 100), (60, 200)]) (some 20) 45 0).map
        (fun o => (o.gd2d.headD []).getD 1 none) = .ok (some (400 / 3)) ∧
      (newGlucoseOf (mkDF [(0, 100), (60, 200)]) (some 20) 45 0).map
        (fun l => l.getD 1 (some 0)) = .ok none :=
  ⟨by with_unfolding_all rfl, by with_unfolding_all rfl⟩

/-- C2: the claim (and the code's own printed message) requires the LAST
glucose value of a duplicated timestamp to be kept, but
`np.unique(tr, return_index=True)` returns first-occurrence indices, so the
FIRST value is kept: with values 100 then 200 recorded at time 0, the
cleaned series holds (0, 100), not (0, 200). -/
theorem C2_duplicate_keeps_first :
    cleanedOf (mkDF [(0, 100), (0, 200), (5, 150)]) 0 = [(0, 100), (5, 150)] := by
  with_unfolding_all rfl

/-- C7 counterexample: the claim says rounding never refines (resolved dt0 ≥
pre-rounding dt0), but a supplied `dt0 = 7` (for which 1440 % 7 ≠ 0) resolves
to 5 < 7. -/
theorem C7_coarsen_counterexample :
    Int.fmod 1440 7 ≠ 0 ∧
      (cgms2daybyday df0 (some 7) 45 0).map Output.dt0 = .ok 5 ∧
      ¬ (7 : ℤ) ≤ 5 :=
  ⟨by decide, by with_unfolding_all rfl, by decide⟩

/-- C7 amended: when `1440 % dt0 ≠ 0` the recalculation clamps a step above
20 down to 20 (a strict decrease) and otherwise moves the step to a multiple
of 5 at distance at most 2 — downward when `dt0 % 5 ≤ 2`, upward when
`dt0 % 5 > 2` — so it may refine as well as coarsen the requested
resolution. -/
theorem C7_rounding_amended (d : ℤ) (h : Int.fmod 1440 d ≠ 0) :
    (20 < d → roundStep d = 20 ∧ roundStep d < d) ∧
    (d ≤ 20 →
      (Int.fmod d 5 ≤ 2 → roundStep d = d - Int.fmod d 5) ∧
      (2 < Int.fmod d 5 → roundStep d = d + (5 - Int.fmod d 5)) ∧
      roundStep d - d ≤ 2 ∧ d - roundStep d ≤ 2) := by
  have hb1 : 0 ≤ Int.fmod d 5 := Int.fmod_nonneg' d (by decide)
  have hb2 : Int.fmod d 5 < 5 := Int.fmod_lt_of_pos d (by decide)
  unfold roundStep
  rw [if_pos h]
  constructor
  · intro h20
    rw [if_pos h20]
    exact ⟨rfl, h20⟩
  · intro h20
    rw [if_neg (not_lt.mpr h20)]
    refine ⟨fun hr => ?_, fun hr => ?_, ?_, ?_⟩ <;> split_ifs <;> omega

/-- C7 witness: the amended bounds at the concrete pre-rounding step 7. -/
theorem C7_rounding_amended_witness :
    (Int.fmod 7 5 ≤ 2 → roundStep 7 = 7 - Int.fmod 7 5) ∧
      (2 < Int.fmod 7 5 → roundStep 7 = 7 + (5 - Int.fmod 7 5)) ∧
      roundStep 7 - 7 ≤ 2 ∧ 7 - roundStep 7 ≤ 2 :=
  (C7_rounding_amended 7 (by decide)).2 (by decide)

/-- C8 counterexample: the claim says the caller's dataframe is never
modified, but when the time column is not already datetime, line 28 assigns
the parsed column into the caller's object in place, so the observed
dataframe changes. -/
theorem C8_mutation_counterexample :
    callerVisibleAfter ⟨[1], .raw ["2020-01-01 00:00:00"], [some 100]⟩ 0 ≠
      ⟨[1], .raw ["2020-01-01 00:00:00"], [some 100]⟩ := by
  intro hcon
  exact absurd hcon (of_decide_eq_false (by with_unfolding_all rfl))

/-- C8 amended: the caller's dataframe is left unchanged exactly when the
time column already has a datetime dtype; otherwise only the time column is
overwritten in place with the parsed, tz-converted values — the id and gl
columns are never modified. -/
theorem C8_mutation_amended (df : DF) (tz : ℚ) :
    (isDtCol df.time = true → callerVisibleAfter df tz = df) ∧
    (callerVisibleAfter df tz).id = df.id ∧
    (callerVisibleAfter df tz).gl = df.gl := by
  obtain ⟨ids, tc, gls⟩ := df
  cases tc <;> simp [callerVisibleAfter, convertTime, isDtCol]

/-- C8 witness: on a datetime-dtype input the caller's dataframe is
untouched. -/
theorem C8_mutation_amended_witness :
    callerVisibleAfter df0 0 = df0 ∧ (callerVisibleAfter df0 0).id = df0.id :=
  ⟨(C8_mutation_amended df0 0).1 (by with_unfolding_all rfl),
    (C8_mutation_amended df0 0).2.1⟩

/-- C10: when the time column already has a datetime dtype, lines 27-30 are
skipped entirely — no parsing, no timezone conversion — so the caller's
dataframe is unchanged and the output of `cgms2daybyday` is identical for
every value of the `tz` argument. -/
theorem C10_tz_independent (df : DF) (g : Option ℤ) (ig tz1 tz2 : ℚ)
    (h : isDtCol df.time = true) :
    convertTime df tz1 = df ∧
      cgms2daybyday df g ig tz1 = cgms2daybyday df g ig tz2 := by
  have hc : ∀ tz : ℚ, convertTime df tz = df := by
    intro tz
    obtain ⟨ids, tc, gls⟩ := df
    cases tc
    · simp [isDtCol] at h
    · rfl
  refine ⟨hc tz1, ?_⟩
  unfold cgms2daybyday pipelineCore cleanedOf
  rw [hc tz1, hc tz2]

/-- C10 witness: the tz-independence at a concrete datetime-dtype input. -/
theorem C10_tz_independent_witness :
    convertTime df0 3 = df0 ∧
      cgms2daybyday df0 (some 5) 45 3 = cgms2daybyday df0 (some 5) 45 7 :=
  C10_tz_independent df0 (some 5) 45 3 7 (by with_unfolding_all rfl)

/-- C3: on inputs with a positive (or absent) requested grid step, every call
of `cgms2daybyday` that returns does so with a resolved step dividing 1440
(Python `1440 % dt0 == 0` in floor-remainder arithmetic); and the
recalculation clamps a non-dividing step above 20 to 20 and otherwise rounds
to a multiple of 5, down when `dt0 % 5 ≤ 2` and up when `dt0 % 5 > 2`, so 7
becomes 5. -/
theorem C3_grid_divisibility :
    (∀ (df : DF) (g : Option ℤ) (ig tz : ℚ) (r : Output),
      (g = none ∨ ∃ k, g = some k ∧ 0 < k) →
      cgms2daybyday df g ig tz = .ok r → Int.fmod 1440 r.dt0 = 0) ∧
    (∀ d : ℤ, Int.fmod 1440 d ≠ 0 →
      (20 < d → roundStep d = 20) ∧
      (d ≤ 20 →
        (Int.fmod d 5 ≤ 2 → roundStep d = d - Int.fmod d 5) ∧
        (2 < Int.fmod d 5 → roundStep d = d + (5 - Int.fmod d 5)))) ∧
    roundStep 7 = 5 := by
  refine ⟨?_, ?_, by decide⟩
  · intro df g ig tz r hg hrun
    unfold cgms2daybyday at hrun
    rcases hp : pipelineCore df g ig tz with e | pr
    · rw [hp] at hrun; simp [Except.map] at hrun
    · rw [hp] at hrun
      simp only [Except.map] at hrun
      injection hrun with hrun
      subst hrun
      rcases hg with rfl | ⟨k, rfl, hk⟩
      · unfold pipelineCore at hp
        simp only [pipeAfterClean] at hp
        split at hp
        · simp at hp
        · obtain ⟨_, hd0, hdt⟩ := finishDt_ok hp
          rw [hdt]
          have h0 : 0 ≤ roundHalfEven (medianQ (diffsOf (cleanedOf df tz))) :=
            roundHalfEven_nonneg (medianQ_nonneg
              (diffsOf_nonneg_of_pairwise (cleanedOf_pairwise df tz)))
          exact roundStep_fmod (lt_of_le_of_ne h0 (Ne.symm hd0))
      · unfold pipelineCore at hp
        simp only [pipeAfterClean] at hp
        obtain ⟨_, _, hdt⟩ := finishDt_ok hp
        rw [hdt]
        exact roundStep_fmod hk
  · intro d hne
    constructor
    · intro h20
      unfold roundStep
      rw [if_pos hne, if_pos h20]
    · intro h20
      constructor
      · intro hr
        unfold roundStep
        rw [if_pos hne, if_neg (not_lt.mpr h20), if_neg (not_lt.mpr hr)]
      · intro hr
        unfold roundStep
        rw [if_pos hne, if_neg (not_lt.mpr h20), if_pos hr]

/-- C3 witness: the divisibility at the concrete call of `df0` with requested
step 7 (which resolves to 5). -/
theorem C3_grid_divisibility_witness : Int.fmod 1440 out0.dt0 = 0 :=
  C3_grid_divisibility.1 df0 (some 7) 45 0 out0
    (Or.inr ⟨7, rfl, by decide⟩) (by with_unfolding_all rfl)

/-- C4: when the grid step is not supplied and the rounded median of the
cleaned consecutive time differences exceeds `inter_gap`, `cgms2daybyday`
raises the declared error and produces no output at all. -/
theorem C4_sparse_error (df : DF) (ig tz : ℚ)
    (h1 : diffsOf (cleanedOf df tz) ≠ [])
    (h2 : ig < (roundHalfEven (medianQ (diffsOf (cleanedOf df tz))) : ℚ)) :
    cgms2daybyday df none ig tz = .error .tooSparse := by
  unfold cgms2daybyday pipelineCore pipeAfterClean finishDt
  rw [if_neg h1, if_pos h2]
  rfl

/-- C4 witness: two observations 50 minutes apart with `inter_gap = 45`
derive `dt0 = 50 > 45` and fail. -/
theorem C4_sparse_error_witness :
    cgms2daybyday (mkDF [(0, 100), (50, 120)]) none 45 0 = .error .tooSparse :=
  C4_sparse_error (mkDF [(0, 100), (50, 120)]) 45 0
    (by with_unfolding_all decide)
    (of_decide_eq_true (by with_unfolding_all rfl))

/-- C5 counterexample: the claim says the only possible failure is the
declared sparsity error, but three observations 10 seconds apart derive a
rounded median `dt0 = 0`, and line 74 of `utils.py` then evaluates `1440 % 0`
and dies with a `ZeroDivisionError` (modelled as `zeroDt0`), a failure other
than the declared one. -/
theorem C5_totality_counterexample :
    cgms2daybyday (mkDF [(0, 100), (1 / 6, 101), (2 / 6, 102)]) none 45 0
        = .error .zeroDt0 ∧ CgmErr.zeroDt0 ≠ CgmErr.tooSparse :=
  ⟨by with_unfolding_all rfl, by decide⟩

/-- C5 amended: `cgms2daybyday` is total and deterministic — it returns a
result or raises only the declared sparsity error — provided the cleaned
series is non-empty, a supplied grid step is non-zero, and, when the step is
derived, there are at least two cleaned observations and the rounded median
difference is non-zero; outside those conditions the call can also die with
the median error, the division by zero of `1440 % 0`, or the empty-series
index error. -/
theorem C5_totality_amended (df : DF) (g : Option ℤ) (ig tz : ℚ)
    (hne : cleanedOf df tz ≠ [])
    (hnone : g = none → diffsOf (cleanedOf df tz) ≠ [] ∧
      roundHalfEven (medianQ (diffsOf (cleanedOf df tz))) ≠ 0)
    (hsome : ∀ k, g = some k → k ≠ 0) :
    (∃ r, cgms2daybyday df g ig tz = .ok r) ∨
      cgms2daybyday df g ig tz = .error .tooSparse := by
  have hcases : (∃ pr, pipeAfterClean (cleanedOf df tz) g ig = .ok pr) ∨
      pipeAfterClean (cleanedOf df tz) g ig = .error .tooSparse := by
    obtain ⟨r0, rest, hrows⟩ := List.exists_cons_of_ne_nil hne
    cases g with
    | none =>
      obtain ⟨htds, hd⟩ := hnone rfl
      rw [hrows] at htds hd
      simp only [pipeAfterClean]
      rw [hrows, if_neg htds]
      exact finishDt_cases _ r0 rest _ ig hd
    | some k =>
      simp only [pipeAfterClean]
      rw [hrows]
      exact finishDt_cases k r0 rest _ ig (hsome k rfl)
  unfold cgms2daybyday pipelineCore
  rcases hcases with ⟨pr, hok⟩ | herr
  · left; exact ⟨pr.1, by rw [hok]; rfl⟩
  · right; rw [herr]; rfl

/-- C5 witness: a well-behaved two-observation series satisfies the amended
conditions. -/
theorem C5_totality_amended_witness :
    (∃ r, cgms2daybyday (mkDF [(0, 100), (5, 110)]) none 45 0 = .ok r) ∨
      cgms2daybyday (mkDF [(0, 100), (5, 110)]) none 45 0 = .error .tooSparse :=
  C5_totality_amended (mkDF [(0, 100), (5, 110)]) none 45 0
    (by with_unfolding_all decide)
    (fun _ => ⟨by with_unfolding_all decide, by with_unfolding_all decide⟩)
    (fun k hk => nomatch hk)

/-- C6 counterexample: the claim says every permutation of a series yields
identical outputs, but with two observations sharing timestamp 0 (values 100
then 200) the duplicate collapse keeps whichever arrived first, so swapping
them changes the output. -/
theorem C6_permutation_counterexample :
    cgms2daybyday (mkDF [(0, 100), (0, 200), (5, 150)]) (some 20) 45 0 ≠
      cgms2daybyday (mkDF [(0, 200), (0, 100), (5, 150)]) (some 20) 45 0 := by
  intro hcon
  exact absurd hcon (of_decide_eq_false (by with_unfolding_all rfl))

/-- C6 amended: on series whose timestamps are pairwise distinct (no
duplicate timestamps), `cgms2daybyday` yields identical outputs on every
permutation of the same observations. -/
theorem C6_permutation_amended (rows1 rows2 : List (ℚ × ℚ)) (g : Option ℤ)
    (ig tz : ℚ) (hp : rows1.Perm rows2) (hn : (rows1.map Prod.fst).Nodup) :
    cgms2daybyday (mkDF rows1) g ig tz = cgms2daybyday (mkDF rows2) g ig tz := by
  unfold cgms2daybyday pipelineCore cleanedOf
  rw [cleanRows_mkDF rows1 tz, cleanRows_mkDF rows2 tz, sortStep_eq_of_perm hp hn]

/-- C6 witness: a concrete duplicate-free series and its reversal. -/
theorem C6_permutation_amended_witness :
    cgms2daybyday (mkDF [(0, 100), (5, 150)]) (some 20) 45 0 =
      cgms2daybyday (mkDF [(5, 150), (0, 100)]) (some 20) 45 0 :=
  C6_permutation_amended [(0, 100), (5, 150)] [(5, 150), (0, 100)] (some 20) 45 0
    (by with_unfolding_all decide) (by with_unfolding_all decide)

/-- C9: each of the eight companion statistics raises the precondition error
when the dataframe lacks the id or gl column, and with both present returns
one row per distinct subject id (the row keys are exactly the distinct ids,
in ascending order). -/
theorem C9_measures_contract (df : MDF) :
    (hasCols df = false →
      above_percent df [140, 180, 250] = .error .missingCols ∧
      cv_glu df = .error .missingCols ∧
      sd_glu df = .error .missingCols ∧
      mad_glu df = .error .missingCols ∧
      iqr_glu df = .error .missingCols ∧
      range_glu df = .error .missingCols ∧
      quantile_glu df [0, 25, 50, 75, 100] = .error .missingCols ∧
      j_index df = .error .missingCols) ∧
    (hasCols df = true →
      (above_percent df [140, 180, 250]).map (List.map Prod.fst)
          = .ok (List.insertionSort (fun a b : ℚ => a ≤ b) df.id.dedup) ∧
      (cv_glu df).map (List.map Prod.fst)
          = .ok (List.insertionSort (fun a b : ℚ => a ≤ b) df.id.dedup) ∧
      (sd_glu df).map (List.map Prod.fst)
          = .ok (List.insertionSort (fun a b : ℚ => a ≤ b) df.id.dedup) ∧
      (mad_glu df).map (List.map Prod.fst)
          = .ok (List.insertionSort (fun a b : ℚ => a ≤ b) df.id.dedup) ∧
      (iqr_glu df).map (List.map Prod.fst)
          = .ok (List.insertionSort (fun a b : ℚ => a ≤ b) df.id.dedup) ∧
      (range_glu df).map (List.map Prod.fst)
          = .ok (List.insertionSort (fun a b : ℚ => a ≤ b) df.id.dedup) ∧
      (quantile_glu df [0, 25, 50, 75, 100]).map (List.map Prod.fst)
          = .ok (List.insertionSort (fun a b : ℚ => a ≤ b) df.id.dedup) ∧
      (j_index df).map (List.map Prod.fst)
          = .ok (List.insertionSort (fun a b : ℚ => a ≤ b) df.id.dedup)) := by
  constructor
  · intro h
    exact ⟨measureRun_missing _ df h, measureRun_missing _ df h,
      measureRun_missing _ df h, measureRun_missing _ df h,
      measureRun_missing _ df h, measureRun_missing _ df h,
      measureRun_missing _ df h, measureRun_missing _ df h⟩
  · intro h
    exact ⟨measureRun_ids _ df h, measureRun_ids _ df h, measureRun_ids _ df h,
      measureRun_ids _ df h, measureRun_ids _ df h, measureRun_ids _ df h,
      measureRun_ids _ df h, measureRun_ids _ df h⟩

/-- C9 witness: a dataframe lacking the id column raises, and a two-subject
dataframe with both columns yields one row per distinct id. -/
theorem C9_measures_contract_witness :
    cv_glu ⟨["gl"], [], []⟩ = .error .missingCols ∧
      (cv_glu ⟨["id", "gl"], [1, 1, 2], [some 100, some 150, some 120]⟩).map
          (List.map Prod.fst)
        = .ok (List.insertionSort (fun a b : ℚ => a ≤ b)
            (([1, 1, 2] : List ℚ)).dedup) :=
  ⟨((C9_measures_contract ⟨["gl"], [], []⟩).1 (by with_unfolding_all rfl)).2.1,
    ((C9_measures_contract ⟨["id", "gl"], [1, 1, 2],
      [some 100, some 150, some 120]⟩).2 (by with_unfolding_all rfl)).2.1⟩
